import Mathlib

/-!
Shallow embedding of the read/write synchronization and retry protocol of
NimBLERemoteDescriptor.cpp (NimBLE-Arduino, as vendored in Tasmota).

The transport callbacks delivered to one blocking call are modelled as an
explicit event trace; each public call is a function of the client
environment and the trace of per-attempt outcomes, returning the
caller-visible result together with counters for the transport requests
issued and for the semaphore operations performed (take / wait / give).
-/

/-- Completion status code: terminal signal of a completed long read
(value from the NimBLE host headers, which are outside src). -/
def BLE_HS_EDONE : Nat := 14

/-- Base offset of ATT protocol errors in host-stack status codes
(value from the NimBLE host headers, which are outside src). -/
def BLE_HS_ERR_ATT_BASE : Nat := 256

/-- Maps an ATT error to the host-stack status code, as the C macro does. -/
def BLE_HS_ATT_ERR (x : Nat) : Nat := BLE_HS_ERR_ATT_BASE + x

/-- ATT error: insufficient authentication. -/
def BLE_ATT_ERR_INSUFFICIENT_AUTHEN : Nat := 5

/-- ATT error: insufficient authorization. -/
def BLE_ATT_ERR_INSUFFICIENT_AUTHOR : Nat := 8

/-- ATT error: attribute cannot be read or written with a long operation. -/
def BLE_ATT_ERR_ATTR_NOT_LONG : Nat := 11

/-- ATT error: insufficient encryption. -/
def BLE_ATT_ERR_INSUFFICIENT_ENC : Nat := 15

/-- Statuses handled by the shared security-retry switch cases of
readValue and writeValue. -/
def isInsufficientSecurity (st : Nat) : Bool :=
  st == BLE_HS_ATT_ERR BLE_ATT_ERR_INSUFFICIENT_AUTHEN ||
  st == BLE_HS_ATT_ERR BLE_ATT_ERR_INSUFFICIENT_AUTHOR ||
  st == BLE_HS_ATT_ERR BLE_ATT_ERR_INSUFFICIENT_ENC

/-- Model of NimBLERemoteDescriptor::releaseSemaphores: the pair of statuses
given to the write gate and to the read gate respectively (both 1). -/
def releaseSemaphores : Nat × Nat := (1, 1)

/-- Environment supplied by the owning client object. -/
structure ClientEnv where
  connected : Bool
  connId : Nat
  attMtu : Nat
deriving DecidableEq

/-- One invocation arriving at the read gate while a read is in flight:
either an onReadCB callback carrying a connection handle, a status and an
optional attribute fragment, or a releaseSemaphores force release. -/
inductive ReadEvent where
  | cb (connHandle : Nat) (status : Nat) (attr : Option (List Nat))
  | forceRelease
deriving DecidableEq

/-- Folds onReadCB over the events of one attempt, starting from buffer buf:
a callback with a stale connection handle is skipped; status 0 with an
attribute appends the fragment; any other callback gives the semaphore with
its status. Returns the buffer at the first give together with the given
status (none when no event gives, so the waiter stays blocked). -/
def processReadEvents (connId : Nat) (buf : List Nat) :
    List ReadEvent → List Nat × Option Nat
  | [] => (buf, none)
  | ReadEvent.cb h st attr :: es =>
    if h ≠ connId then processReadEvents connId buf es
    else if st = 0 then
      match attr with
      | some bytes => processReadEvents connId (buf ++ bytes) es
      | none => (buf, some 0)
    else (buf, some st)
  | ReadEvent.forceRelease :: _ => (buf, some releaseSemaphores.2)

/-- Outcome of one iteration of the readValue loop as driven by the
environment: the result of the ble_gattc_read_long call and, when that
call succeeds, the events delivered and what secureConnection would
return if consulted. -/
structure ReadAttemptEnv where
  issueRc : Nat
  events : List ReadEvent
  secureOk : Bool
deriving DecidableEq

/-- Caller-visible result of readValue plus a trace of the effects:
number of ble_gattc_read_long calls, semaphore takes, waits entered and
explicit gives performed by readValue itself. result is none when the
call is still blocked in wait or the environment ran out of attempts. -/
structure ReadOutcome where
  result : Option (List Nat)
  requests : Nat
  takes : Nat
  waits : Nat
  gives : Nat
deriving DecidableEq

/-- The do/while loop of NimBLERemoteDescriptor::readValue, recursing over
the per-attempt environment. retryCount is the C int counter; a security
retry re-enters the loop with it post-decremented. -/
def readLoop (connId : Nat) (buf : List Nat) (retryCount : Int) :
    List ReadAttemptEnv → ReadOutcome
  | [] => ⟨none, 0, 0, 0, 0⟩
  | a :: rest =>
    if a.issueRc ≠ 0 then ⟨some [], 1, 1, 0, 1⟩
    else
      match processReadEvents connId buf a.events with
      | (_, none) => ⟨none, 1, 1, 1, 0⟩
      | (buf2, some st) =>
        if st = 0 ∨ st = BLE_HS_EDONE then ⟨some buf2, 1, 1, 1, 0⟩
        else if st = BLE_HS_ATT_ERR BLE_ATT_ERR_ATTR_NOT_LONG then
          ⟨some buf2, 1, 1, 1, 0⟩
        else if isInsufficientSecurity st then
          if retryCount ≠ 0 ∧ a.secureOk then
            let o := readLoop connId buf2 (retryCount - 1) rest
            ⟨o.result, o.requests + 1, o.takes + 1, o.waits + 1, o.gives⟩
          else ⟨some [], 1, 1, 1, 0⟩
        else ⟨some [], 1, 1, 1, 0⟩

/-- NimBLERemoteDescriptor::readValue: clears the accumulated value, fails
with the empty string when disconnected, otherwise runs the attempt loop
with retryCount = 1. -/
def readValue (env : ClientEnv) (attempts : List ReadAttemptEnv) : ReadOutcome :=
  if env.connected then readLoop env.connId [] 1 attempts
  else ⟨some [], 0, 0, 0, 0⟩

/-- One invocation arriving at the write gate: an onWriteCB callback or a
releaseSemaphores force release. -/
inductive WriteEvent where
  | cb (connHandle : Nat) (status : Nat)
  | forceRelease
deriving DecidableEq

/-- Folds onWriteCB over the events of one attempt: a stale connection
handle is skipped, any other callback gives the semaphore with its
status. -/
def processWriteEvents (connId : Nat) : List WriteEvent → Option Nat
  | [] => none
  | WriteEvent.cb h st :: es =>
    if h ≠ connId then processWriteEvents connId es else some st
  | WriteEvent.forceRelease :: _ => some releaseSemaphores.1

/-- Kind of transport request issued by writeValue. -/
inductive WriteReqKind where
  | noRsp
  | flat
  | long
deriving DecidableEq

/-- One transport request as recorded by a spy transport: which
ble_gattc call was made, with which connection id, attribute handle and
payload. -/
structure WriteReq where
  kind : WriteReqKind
  connId : Nat
  handle : Nat
  payload : List Nat
deriving DecidableEq

/-- Outcome of one iteration of the writeValue loop as driven by the
environment. -/
structure WriteAttemptEnv where
  issueRc : Nat
  events : List WriteEvent
  secureOk : Bool
deriving DecidableEq

/-- Caller-visible result of writeValue plus the trace of requests issued
and semaphore effects. result is none when the call is still blocked or
the environment ran out of attempts. -/
structure WriteOutcome where
  result : Option Bool
  reqs : List WriteReq
  takes : Nat
  waits : Nat
  gives : Nat
deriving DecidableEq

/-- Usable single-frame payload ceiling: ble_att_mtu(connId) - 3 computed
in uint16_t arithmetic, so it wraps modulo 2 ^ 16 when the MTU is below
3. -/
def mtuCeil (attMtu : Nat) : Nat := (attMtu + 65533) % 65536

/-- The do/while loop of NimBLERemoteDescriptor::writeValue. On the
not-long status the C code increments retryCount and sets length = mtu
(modelled as taking the first mtu bytes of the payload); the loop
condition then post-decrements retryCount, so the loop re-enters with
retryCount unchanged whenever retryCount + 1 is nonzero. -/
def writeLoop (connId handle mtu : Nat) (data : List Nat) (retryCount : Int) :
    List WriteAttemptEnv → WriteOutcome
  | [] => ⟨none, [], 0, 0, 0⟩
  | a :: rest =>
    let req : WriteReq :=
      if data.length > mtu then ⟨WriteReqKind.long, connId, handle, data⟩
      else ⟨WriteReqKind.flat, connId, handle, data⟩
    if a.issueRc ≠ 0 then ⟨some false, [req], 1, 0, 1⟩
    else
      match processWriteEvents connId a.events with
      | none => ⟨none, [req], 1, 1, 0⟩
      | some st =>
        if st = 0 ∨ st = BLE_HS_EDONE then ⟨some true, [req], 1, 1, 0⟩
        else if st = BLE_HS_ATT_ERR BLE_ATT_ERR_ATTR_NOT_LONG then
          if retryCount + 1 ≠ 0 then
            let o := writeLoop connId handle mtu (data.take mtu) retryCount rest
            ⟨o.result, req :: o.reqs, o.takes + 1, o.waits + 1, o.gives⟩
          else ⟨some false, [req], 1, 1, 0⟩
        else if isInsufficientSecurity st then
          if retryCount ≠ 0 ∧ a.secureOk then
            let o := writeLoop connId handle mtu data (retryCount - 1) rest
            ⟨o.result, req :: o.reqs, o.takes + 1, o.waits + 1, o.gives⟩
          else ⟨some false, [req], 1, 1, 0⟩
        else ⟨some false, [req], 1, 1, 0⟩

/-- NimBLERemoteDescriptor::writeValue: fails when disconnected; a payload
that fits one frame and needs no response is sent with
ble_gattc_write_no_rsp_flat (whose result code the environment supplies as
noRspRc) without touching the semaphore; otherwise the attempt loop runs
with retryCount = 1. -/
def writeValue (env : ClientEnv) (handle : Nat) (data : List Nat)
    (response : Bool) (noRspRc : Nat) (attempts : List WriteAttemptEnv) :
    WriteOutcome :=
  if ¬ env.connected then ⟨some false, [], 0, 0, 0⟩
  else
    let mtu := mtuCeil env.attMtu
    if data.length ≤ mtu ∧ ¬ response then
      ⟨some (noRspRc == 0), [⟨WriteReqKind.noRsp, env.connId, handle, data⟩],
        0, 0, 0⟩
    else
      writeLoop env.connId handle mtu data 1 attempts

/-! Helper lemmas about the event processors and the loops. -/

theorem processReadEvents_decomp (c : Nat) (buf : List Nat)
    (es : List ReadEvent) :
    processReadEvents c buf es =
      (buf ++ (processReadEvents c [] es).1, (processReadEvents c [] es).2) := by
  induction es generalizing buf with
  | nil => simp [processReadEvents]
  | cons e es ih =>
    cases e with
    | cb h st attr =>
      by_cases hh : h ≠ c
      · simp only [processReadEvents, if_pos hh]
        exact ih buf
      · by_cases hst : st = 0
        · cases attr with
          | some bytes =>
            simp only [processReadEvents, if_neg hh, if_pos hst,
              List.nil_append]
            rw [ih (buf ++ bytes), ih bytes]
            simp [List.append_assoc]
          | none => simp [processReadEvents, hh, hst]
        · simp [processReadEvents, hh, hst]
    | forceRelease => simp [processReadEvents]

theorem processReadEvents_append_force (c : Nat) (buf : List Nat)
    (es : List ReadEvent)
    (h : (processReadEvents c buf es).2 = none) :
    processReadEvents c buf (es ++ [ReadEvent.forceRelease]) =
      ((processReadEvents c buf es).1, some 1) := by
  induction es generalizing buf with
  | nil => simp [processReadEvents, releaseSemaphores]
  | cons e es ih =>
    cases e with
    | cb hh st attr =>
      by_cases hne : hh ≠ c
      · simp only [processReadEvents, if_pos hne] at h ⊢
        exact ih buf h
      · by_cases hst : st = 0
        · cases attr with
          | some bytes =>
            simp only [processReadEvents, if_neg hne, if_pos hst] at h ⊢
            exact ih (buf ++ bytes) h
          | none => simp [processReadEvents, hne, hst] at h
        · simp [processReadEvents, hne, hst] at h
    | forceRelease => simp [processReadEvents] at h

theorem processWriteEvents_append_force (c : Nat) (es : List WriteEvent)
    (h : processWriteEvents c es = none) :
    processWriteEvents c (es ++ [WriteEvent.forceRelease]) = some 1 := by
  induction es with
  | nil => simp [processWriteEvents, releaseSemaphores]
  | cons e es ih =>
    cases e with
    | cb hh st =>
      by_cases hne : hh ≠ c
      · simp only [processWriteEvents, if_pos hne] at h ⊢
        exact ih h
      · simp [processWriteEvents, hne] at h
    | forceRelease => simp [processWriteEvents] at h

theorem insufficientSecurity_cases (st : Nat)
    (h : isInsufficientSecurity st = true) :
    st ≠ 0 ∧ st ≠ BLE_HS_EDONE ∧
      st ≠ BLE_HS_ATT_ERR BLE_ATT_ERR_ATTR_NOT_LONG := by
  simp [isInsufficientSecurity, BLE_HS_ATT_ERR, BLE_HS_ERR_ATT_BASE,
    BLE_ATT_ERR_INSUFFICIENT_AUTHEN, BLE_ATT_ERR_INSUFFICIENT_AUTHOR,
    BLE_ATT_ERR_INSUFFICIENT_ENC] at h
  simp only [BLE_HS_EDONE, BLE_HS_ATT_ERR, BLE_HS_ERR_ATT_BASE,
    BLE_ATT_ERR_ATTR_NOT_LONG]
  omega

theorem insufficientSecurity_not_success (st : Nat)
    (h : isInsufficientSecurity st = true) :
    ¬ (st = 0 ∨ st = BLE_HS_EDONE) := by
  have hne := insufficientSecurity_cases st h
  rintro (he | he)
  · exact hne.1 he
  · exact hne.2.1 he

theorem mtuCeil_eq (m : Nat) (h3 : 3 ≤ m) (hm : m < 65536) :
    mtuCeil m = m - 3 := by
  unfold mtuCeil
  have he : m + 65533 = (m - 3) + 65536 := by omega
  rw [he, Nat.add_mod_right, Nat.mod_eq_of_lt (by omega)]

theorem processReadEvents_frags (c : Nat) (buf : List Nat)
    (frags : List (List Nat)) :
    processReadEvents c buf
      ((frags.map fun f => ReadEvent.cb c 0 (some f)) ++
        [ReadEvent.cb c BLE_HS_EDONE none]) =
      (buf ++ frags.flatten, some BLE_HS_EDONE) := by
  induction frags generalizing buf with
  | nil => simp [processReadEvents, BLE_HS_EDONE]
  | cons f fs ih => simp [processReadEvents, ih]

theorem readLoop_requests_retry_zero (c : Nat) (buf : List Nat)
    (atts : List ReadAttemptEnv) : (readLoop c buf 0 atts).requests ≤ 1 := by
  cases atts with
  | nil => simp [readLoop]
  | cons a rest =>
    simp only [readLoop]
    by_cases h0 : a.issueRc ≠ 0
    · simp [h0]
    · simp only [if_neg h0]
      rcases hps : processReadEvents c buf a.events with ⟨b2, so⟩
      cases so with
      | none => simp
      | some st =>
        by_cases hc1 : st = 0 ∨ st = BLE_HS_EDONE
        · simp [hc1]
        · by_cases hc2 : st = BLE_HS_ATT_ERR BLE_ATT_ERR_ATTR_NOT_LONG
          · simp [hc1, hc2]
          · by_cases hc3 : isInsufficientSecurity st = true
            · simp [hc1, hc2, hc3]
            · simp [hc1, hc2, hc3]

theorem readLoop_requests_retry_one (c : Nat) (buf : List Nat)
    (atts : List ReadAttemptEnv) : (readLoop c buf 1 atts).requests ≤ 2 := by
  cases atts with
  | nil => simp [readLoop]
  | cons a rest =>
    simp only [readLoop]
    by_cases h0 : a.issueRc ≠ 0
    · simp [h0]
    · simp only [if_neg h0]
      rcases hps : processReadEvents c buf a.events with ⟨b2, so⟩
      cases so with
      | none => simp
      | some st =>
        by_cases hc1 : st = 0 ∨ st = BLE_HS_EDONE
        · simp [hc1]
        · by_cases hc2 : st = BLE_HS_ATT_ERR BLE_ATT_ERR_ATTR_NOT_LONG
          · simp [hc1, hc2]
          · by_cases hc3 : isInsufficientSecurity st = true
            · by_cases hc4 : a.secureOk = true
              · simp only [hc1, hc2, hc3, hc4, if_false, if_true,
                  or_self, ite_false, ite_true]
                simp [sub_self]
                have := readLoop_requests_retry_zero c b2 rest
                omega
              · simp [hc1, hc2, hc3, hc4]
            · simp [hc1, hc2, hc3]

theorem readLoop_isSome_retry_zero (c : Nat) (buf : List Nat)
    (a : ReadAttemptEnv) (rest : List ReadAttemptEnv)
    (hsig : ((processReadEvents c [] a.events).2).isSome) :
    ((readLoop c buf 0 (a :: rest)).result).isSome := by
  simp only [readLoop]
  by_cases h0 : a.issueRc ≠ 0
  · simp [h0]
  · simp only [if_neg h0]
    rcases hps : processReadEvents c buf a.events with ⟨b2, so⟩
    have hso : so.isSome := by
      rw [processReadEvents_decomp] at hps
      have h2 := congrArg Prod.snd hps
      simp only at h2
      rw [← h2]
      exact hsig
    cases so with
    | none => simp at hso
    | some st =>
      by_cases hc1 : st = 0 ∨ st = BLE_HS_EDONE
      · simp [hc1]
      · by_cases hc2 : st = BLE_HS_ATT_ERR BLE_ATT_ERR_ATTR_NOT_LONG
        · simp [hc1, hc2]
        · by_cases hc3 : isInsufficientSecurity st = true
          · simp [hc1, hc2, hc3]
          · simp [hc1, hc2, hc3]

theorem readLoop_isSome_retry_one (c : Nat) (a1 a2 : ReadAttemptEnv)
    (rest : List ReadAttemptEnv)
    (h1s : ((processReadEvents c [] a1.events).2).isSome)
    (h2s : ((processReadEvents c [] a2.events).2).isSome) :
    ((readLoop c [] 1 (a1 :: a2 :: rest)).result).isSome := by
  rw [readLoop]
  by_cases h0 : a1.issueRc ≠ 0
  · simp [h0]
  · simp only [if_neg h0]
    rcases hps : processReadEvents c [] a1.events with ⟨b2, so⟩
    have hso : so.isSome := by rw [hps] at h1s; exact h1s
    cases so with
    | none => simp at hso
    | some st =>
      by_cases hc1 : st = 0 ∨ st = BLE_HS_EDONE
      · simp [hc1]
      · by_cases hc2 : st = BLE_HS_ATT_ERR BLE_ATT_ERR_ATTR_NOT_LONG
        · simp [hc1, hc2]
        · by_cases hc3 : isInsufficientSecurity st = true
          · by_cases hc4 : a1.secureOk = true
            · simp [hc1, hc2, hc3, hc4, sub_self]
              exact readLoop_isSome_retry_zero c b2 a2 rest h2s
            · simp [hc1, hc2, hc3, hc4]
          · simp [hc1, hc2, hc3]

theorem writeLoop_reqs_len_retry_zero (c h m : Nat) (d : List Nat)
    (atts : List WriteAttemptEnv)
    (hnl : ∀ a ∈ atts, processWriteEvents c a.events ≠
      some (BLE_HS_ATT_ERR BLE_ATT_ERR_ATTR_NOT_LONG)) :
    ((writeLoop c h m d 0 atts).reqs).length ≤ 1 := by
  cases atts with
  | nil => simp [writeLoop]
  | cons a rest =>
    simp only [writeLoop]
    by_cases h0 : a.issueRc ≠ 0
    · simp [h0]
    · simp only [if_neg h0]
      rcases hps : processWriteEvents c a.events with _ | st
      · simp
      · by_cases hc1 : st = 0 ∨ st = BLE_HS_EDONE
        · simp [hc1]
        · have hc2 : ¬ st = BLE_HS_ATT_ERR BLE_ATT_ERR_ATTR_NOT_LONG := by
            intro he
            exact hnl a (List.mem_cons_self a rest) (by rw [hps, he])
          by_cases hc3 : isInsufficientSecurity st = true
          · simp [hc1, hc2, hc3]
          · simp [hc1, hc2, hc3]

theorem writeLoop_reqs_len_retry_one (c h m : Nat) (d : List Nat)
    (atts : List WriteAttemptEnv)
    (hnl : ∀ a ∈ atts, processWriteEvents c a.events ≠
      some (BLE_HS_ATT_ERR BLE_ATT_ERR_ATTR_NOT_LONG)) :
    ((writeLoop c h m d 1 atts).reqs).length ≤ 2 := by
  cases atts with
  | nil => simp [writeLoop]
  | cons a rest =>
    simp only [writeLoop]
    by_cases h0 : a.issueRc ≠ 0
    · simp [h0]
    · simp only [if_neg h0]
      rcases hps : processWriteEvents c a.events with _ | st
      · simp
      · by_cases hc1 : st = 0 ∨ st = BLE_HS_EDONE
        · simp [hc1]
        · have hc2 : ¬ st = BLE_HS_ATT_ERR BLE_ATT_ERR_ATTR_NOT_LONG := by
            intro he
            exact hnl a (List.mem_cons_self a rest) (by rw [hps, he])
          by_cases hc3 : isInsufficientSecurity st = true
          · by_cases hc4 : a.secureOk = true
            · simp [hc1, hc2, hc3, hc4, sub_self]
              have := writeLoop_reqs_len_retry_zero c h m d rest
                (fun x hx => hnl x (List.mem_cons_of_mem a hx))
              omega
            · simp [hc1, hc2, hc3, hc4]
          · simp [hc1, hc2, hc3]

theorem writeLoop_isSome_retry_zero (c h m : Nat) (d : List Nat)
    (a : WriteAttemptEnv) (rest : List WriteAttemptEnv)
    (hsig : (processWriteEvents c a.events).isSome)
    (hnl : processWriteEvents c a.events ≠
      some (BLE_HS_ATT_ERR BLE_ATT_ERR_ATTR_NOT_LONG)) :
    ((writeLoop c h m d 0 (a :: rest)).result).isSome := by
  simp only [writeLoop]
  by_cases h0 : a.issueRc ≠ 0
  · simp [h0]
  · simp only [if_neg h0]
    rcases hps : processWriteEvents c a.events with _ | st
    · rw [hps] at hsig
      simp at hsig
    · by_cases hc1 : st = 0 ∨ st = BLE_HS_EDONE
      · simp [hc1]
      · have hc2 : ¬ st = BLE_HS_ATT_ERR BLE_ATT_ERR_ATTR_NOT_LONG := by
          intro he
          exact hnl (by rw [hps, he])
        by_cases hc3 : isInsufficientSecurity st = true
        · simp [hc1, hc2, hc3]
        · simp [hc1, hc2, hc3]

theorem writeLoop_isSome_retry_one (c h m : Nat) (d : List Nat)
    (a1 a2 : WriteAttemptEnv) (rest : List WriteAttemptEnv)
    (h1s : (processWriteEvents c a1.events).isSome)
    (h2s : (processWriteEvents c a2.events).isSome)
    (h1nl : processWriteEvents c a1.events ≠
      some (BLE_HS_ATT_ERR BLE_ATT_ERR_ATTR_NOT_LONG))
    (h2nl : processWriteEvents c a2.events ≠
      some (BLE_HS_ATT_ERR BLE_ATT_ERR_ATTR_NOT_LONG)) :
    ((writeLoop c h m d 1 (a1 :: a2 :: rest)).result).isSome := by
  rw [writeLoop]
  by_cases h0 : a1.issueRc ≠ 0
  · simp [h0]
  · simp only [if_neg h0]
    rcases hps : processWriteEvents c a1.events with _ | st
    · rw [hps] at h1s
      simp at h1s
    · by_cases hc1 : st = 0 ∨ st = BLE_HS_EDONE
      · simp [hc1]
      · have hc2 : ¬ st = BLE_HS_ATT_ERR BLE_ATT_ERR_ATTR_NOT_LONG := by
          intro he
          exact h1nl (by rw [hps, he])
        by_cases hc3 : isInsufficientSecurity st = true
        · by_cases hc4 : a1.secureOk = true
          · simp [hc1, hc2, hc3, hc4, sub_self]
            exact writeLoop_isSome_retry_zero c h m d a2 rest h2s h2nl
          · simp [hc1, hc2, hc3, hc4]
        · simp [hc1, hc2, hc3]

theorem writeLoop_reqs_head (c h m : Nat) (d : List Nat) (r : Int)
    (a : WriteAttemptEnv) (rest : List WriteAttemptEnv) :
    ∃ t, (writeLoop c h m d r (a :: rest)).reqs =
      (if d.length > m then (⟨WriteReqKind.long, c, h, d⟩ : WriteReq)
       else ⟨WriteReqKind.flat, c, h, d⟩) :: t := by
  simp only [writeLoop]
  by_cases h0 : a.issueRc ≠ 0
  · exact ⟨[], by simp [h0]⟩
  · simp only [if_neg h0]
    rcases hps : processWriteEvents c a.events with _ | st
    · exact ⟨[], by simp⟩
    · by_cases hc1 : st = 0 ∨ st = BLE_HS_EDONE
      · exact ⟨[], by simp [hc1]⟩
      · by_cases hc2 : st = BLE_HS_ATT_ERR BLE_ATT_ERR_ATTR_NOT_LONG
        · by_cases hc5 : r + 1 ≠ 0
          · exact ⟨(writeLoop c h m (List.take m d) r rest).reqs,
              by simp [if_neg hc1, if_pos hc2, if_pos hc5]⟩
          · exact ⟨[], by simp [if_neg hc1, if_pos hc2, if_neg hc5]⟩
        · by_cases hc3 : isInsufficientSecurity st = true
          · by_cases hc4 : r ≠ 0 ∧ a.secureOk = true
            · exact ⟨(writeLoop c h m d (r - 1) rest).reqs,
                by simp [hc1, hc2, hc3, hc4]⟩
            · exact ⟨[], by simp [hc1, hc2, hc3, hc4]⟩
          · exact ⟨[], by simp [hc1, hc2, hc3]⟩

/-- C9: a readValue or writeValue call made while the transport reports
disconnected returns the empty byte sequence respectively false, issues no
transport request and never acquires, waits on or gives the completion
gate. -/
theorem disconnected_no_request (env : ClientEnv) (hnd : Nat) (d : List Nat)
    (resp : Bool) (nr : Nat) (ratts : List ReadAttemptEnv)
    (watts : List WriteAttemptEnv) (hc : env.connected = false) :
    readValue env ratts = ⟨some [], 0, 0, 0, 0⟩ ∧
    writeValue env hnd d resp nr watts = ⟨some false, [], 0, 0, 0⟩ := by
  refine ⟨?_, ?_⟩
  · simp [readValue, hc]
  · simp [writeValue, hc]

/-- Witness for the disconnected guard at a concrete input. -/
theorem disconnected_no_request_witness :
    readValue ⟨false, 1, 23⟩ [] = ⟨some [], 0, 0, 0, 0⟩ ∧
    writeValue ⟨false, 1, 23⟩ 7 [1, 2] true 0 [] = ⟨some false, [], 0, 0, 0⟩ :=
  disconnected_no_request ⟨false, 1, 23⟩ 7 [1, 2] true 0 [] [] rfl

/-- C10: a read or write completion callback whose connection handle
differs from the current connection id changes nothing: it neither appends
to the accumulated buffer nor signals either completion gate. -/
theorem stale_callback_ignored (connId h st : Nat) (attr : Option (List Nat))
    (buf : List Nat) (es : List ReadEvent) (st2 : Nat)
    (es2 : List WriteEvent) (hne : h ≠ connId) :
    processReadEvents connId buf (ReadEvent.cb h st attr :: es) =
      processReadEvents connId buf es ∧
    processWriteEvents connId (WriteEvent.cb h st2 :: es2) =
      processWriteEvents connId es2 := by
  refine ⟨?_, ?_⟩
  · simp [processReadEvents, hne]
  · simp [processWriteEvents, hne]

/-- Witness for stale callback filtering at a concrete input. -/
theorem stale_callback_ignored_witness :
    processReadEvents 1 [] [ReadEvent.cb 2 0 (some [9])] =
      processReadEvents 1 [] [] ∧
    processWriteEvents 1 [WriteEvent.cb 2 0] = processWriteEvents 1 [] :=
  stale_callback_ignored 1 2 0 (some [9]) [] [] 0 [] (by decide)

/-- C5: a write whose payload fits in one frame and whose response flag is
false issues exactly one no-response write, never takes the gate, never
waits, performs no retry, and returns true exactly when the issue call
returned zero. -/
theorem writeValue_no_response_fast_path (env : ClientEnv) (hnd : Nat)
    (d : List Nat) (nr : Nat) (atts : List WriteAttemptEnv)
    (hc : env.connected = true) (hlen : d.length ≤ mtuCeil env.attMtu) :
    writeValue env hnd d false nr atts =
      ⟨some (nr == 0), [⟨WriteReqKind.noRsp, env.connId, hnd, d⟩], 0, 0, 0⟩ ∧
    ((nr == 0) = true ↔ nr = 0) := by
  refine ⟨?_, by simp⟩
  simp [writeValue, hc, hlen]

/-- Witness for the no-response fast path at a concrete input. -/
theorem writeValue_no_response_fast_path_witness :
    writeValue ⟨true, 1, 23⟩ 7 [1, 2, 3] false 0 [] =
      ⟨some ((0 : Nat) == 0), [⟨WriteReqKind.noRsp, 1, 7, [1, 2, 3]⟩],
        0, 0, 0⟩ ∧
    (((0 : Nat) == 0) = true ↔ (0 : Nat) = 0) :=
  writeValue_no_response_fast_path ⟨true, 1, 23⟩ 7 [1, 2, 3] 0 [] rfl (by decide)

/-- C7: when issuing the transport request itself fails, the call gives the
gate back immediately and returns the failure result: no wait is entered,
exactly the one failed issue call is recorded and no retry happens. -/
theorem issue_failure_force_release (env : ClientEnv) (hnd nr : Nat)
    (d : List Nat) (a : ReadAttemptEnv) (rest : List ReadAttemptEnv)
    (w : WriteAttemptEnv) (wrest : List WriteAttemptEnv)
    (hc : env.connected = true) (ha : a.issueRc ≠ 0) (hw : w.issueRc ≠ 0) :
    readValue env (a :: rest) = ⟨some [], 1, 1, 0, 1⟩ ∧
    (writeValue env hnd d true nr (w :: wrest)).result = some false ∧
    ((writeValue env hnd d true nr (w :: wrest)).reqs).length = 1 ∧
    (writeValue env hnd d true nr (w :: wrest)).waits = 0 ∧
    (writeValue env hnd d true nr (w :: wrest)).gives = 1 := by
  refine ⟨?_, ?_, ?_, ?_, ?_⟩
  · simp [readValue, readLoop, hc, ha]
  all_goals simp [writeValue, writeLoop, hc, hw]

/-- Witness for the issue-failure path at a concrete input. -/
theorem issue_failure_force_release_witness :
    readValue ⟨true, 1, 23⟩ [⟨5, [], true⟩] = ⟨some [], 1, 1, 0, 1⟩ ∧
    (writeValue ⟨true, 1, 23⟩ 7 [1] true 0 [⟨5, [], true⟩]).result =
      some false ∧
    ((writeValue ⟨true, 1, 23⟩ 7 [1] true 0 [⟨5, [], true⟩]).reqs).length = 1 ∧
    (writeValue ⟨true, 1, 23⟩ 7 [1] true 0 [⟨5, [], true⟩]).waits = 0 ∧
    (writeValue ⟨true, 1, 23⟩ 7 [1] true 0 [⟨5, [], true⟩]).gives = 1 :=
  issue_failure_force_release ⟨true, 1, 23⟩ 7 0 [1] ⟨5, [], true⟩ []
    ⟨5, [], true⟩ [] rfl (by decide) (by decide)

/-- C3: a read whose single attempt delivers N data callbacks (status 0,
current connection, one fragment each) followed by the terminal success
signal returns exactly the concatenation of the fragments in delivery
order. -/
theorem readValue_concatenation (env : ClientEnv) (frags : List (List Nat))
    (s : Bool) (hc : env.connected = true) :
    (readValue env
      [⟨0, (frags.map fun f => ReadEvent.cb env.connId 0 (some f)) ++
        [ReadEvent.cb env.connId BLE_HS_EDONE none], s⟩]).result =
      some frags.flatten := by
  have hp := processReadEvents_frags env.connId [] frags
  simp [readValue, readLoop, hc, hp]

/-- Witness for concatenation of two 2-byte fragments. -/
theorem readValue_concatenation_witness :
    (readValue ⟨true, 1, 23⟩
      [⟨0, ([[1, 2], [3, 4]].map fun f => ReadEvent.cb 1 0 (some f)) ++
        [ReadEvent.cb 1 BLE_HS_EDONE none], true⟩]).result =
      some [1, 2, 3, 4] := by
  have h := readValue_concatenation ⟨true, 1, 23⟩ [[1, 2], [3, 4]] true rfl
  simpa using h

/-- C8: releaseSemaphores gives both gates the non-success status 1; a read
blocked in wait (its events so far produced no signal) that then receives
the force release is woken and returns the empty result instead of
blocking. -/
theorem forceRelease_wakes_read (env : ClientEnv) (es : List ReadEvent)
    (s : Bool) (b : List Nat) (hc : env.connected = true)
    (hblocked : processReadEvents env.connId [] es = (b, none)) :
    releaseSemaphores.1 ≠ 0 ∧ releaseSemaphores.2 ≠ 0 ∧
    readValue env [⟨0, es ++ [ReadEvent.forceRelease], s⟩] =
      ⟨some [], 1, 1, 1, 0⟩ := by
  refine ⟨by decide, by decide, ?_⟩
  have hsig : processReadEvents env.connId []
      (es ++ [ReadEvent.forceRelease]) = (b, some 1) := by
    have h2 := processReadEvents_append_force env.connId [] es
      (by rw [hblocked])
    rw [hblocked] at h2
    exact h2
  simp [readValue, readLoop, hc, hsig, BLE_HS_EDONE, BLE_HS_ATT_ERR,
    BLE_HS_ERR_ATT_BASE, BLE_ATT_ERR_ATTR_NOT_LONG, isInsufficientSecurity,
    BLE_ATT_ERR_INSUFFICIENT_AUTHEN, BLE_ATT_ERR_INSUFFICIENT_AUTHOR,
    BLE_ATT_ERR_INSUFFICIENT_ENC]

/-- Witness for the force release of a blocked read at a concrete input. -/
theorem forceRelease_wakes_read_witness :
    releaseSemaphores.1 ≠ 0 ∧ releaseSemaphores.2 ≠ 0 ∧
    readValue ⟨true, 1, 23⟩ [⟨0, [] ++ [ReadEvent.forceRelease], true⟩] =
      ⟨some [], 1, 1, 1, 0⟩ :=
  forceRelease_wakes_read ⟨true, 1, 23⟩ [] true [] rfl rfl

/-- C6: an attempt that completes with an insufficient
authentication/authorization/encryption status while no security upgrade is
available, or while the retry budget is already exhausted (whether or not
an upgrade would still be available), ends the call right after that one
attempt: the read returns the empty sequence, the write returns false, and
no further request is issued. In particular a call whose first security
failure is retried after a successful upgrade and whose second attempt
fails with a security status again stops at two requests. -/
theorem security_failure_single_attempt (env : ClientEnv) (hnd nr m : Nat)
    (d buf : List Nat) (a : ReadAttemptEnv) (rest : List ReadAttemptEnv)
    (w : WriteAttemptEnv) (wrest : List WriteAttemptEnv)
    (a2 : ReadAttemptEnv) (rest2 : List ReadAttemptEnv)
    (w2 : WriteAttemptEnv) (wrest2 : List WriteAttemptEnv)
    (aa1 aa2 : ReadAttemptEnv) (ww1 ww2 : WriteAttemptEnv)
    (b1 b2 c1 c2 : List Nat) (st stw st2 stw2 su1 su2 sw1 sw2 : Nat)
    (hc : env.connected = true)
    (ha0 : a.issueRc = 0)
    (hap : processReadEvents env.connId [] a.events = (b1, some st))
    (hsec : isInsufficientSecurity st = true)
    (hnosec : a.secureOk = false)
    (hw0 : w.issueRc = 0)
    (hwp : processWriteEvents env.connId w.events = some stw)
    (hwsec : isInsufficientSecurity stw = true)
    (hwnosec : w.secureOk = false)
    (ha20 : a2.issueRc = 0)
    (ha2p : processReadEvents env.connId [] a2.events = (b2, some st2))
    (hsec2 : isInsufficientSecurity st2 = true)
    (hw20 : w2.issueRc = 0)
    (hw2p : processWriteEvents env.connId w2.events = some stw2)
    (hwsec2 : isInsufficientSecurity stw2 = true)
    (haa10 : aa1.issueRc = 0)
    (haa1p : processReadEvents env.connId [] aa1.events = (c1, some su1))
    (hsecu1 : isInsufficientSecurity su1 = true)
    (hsoa1 : aa1.secureOk = true)
    (haa20 : aa2.issueRc = 0)
    (haa2p : processReadEvents env.connId [] aa2.events = (c2, some su2))
    (hsecu2 : isInsufficientSecurity su2 = true)
    (hww10 : ww1.issueRc = 0)
    (hww1p : processWriteEvents env.connId ww1.events = some sw1)
    (hsecw1 : isInsufficientSecurity sw1 = true)
    (hsow1 : ww1.secureOk = true)
    (hww20 : ww2.issueRc = 0)
    (hww2p : processWriteEvents env.connId ww2.events = some sw2)
    (hsecw2 : isInsufficientSecurity sw2 = true) :
    readValue env (a :: rest) = ⟨some [], 1, 1, 1, 0⟩ ∧
    (writeValue env hnd d true nr (w :: wrest)).result = some false ∧
    ((writeValue env hnd d true nr (w :: wrest)).reqs).length = 1 ∧
    readLoop env.connId buf 0 (a2 :: rest2) = ⟨some [], 1, 1, 1, 0⟩ ∧
    (writeLoop env.connId hnd m d 0 (w2 :: wrest2)).result = some false ∧
    ((writeLoop env.connId hnd m d 0 (w2 :: wrest2)).reqs).length = 1 ∧
    readValue env [aa1, aa2] = ⟨some [], 2, 2, 2, 0⟩ ∧
    (writeValue env hnd d true nr [ww1, ww2]).result = some false ∧
    ((writeValue env hnd d true nr [ww1, ww2]).reqs).length = 2 := by
  have hne := insufficientSecurity_cases st hsec
  have hnew := insufficientSecurity_cases stw hwsec
  have hne2 := insufficientSecurity_cases st2 hsec2
  have hnew2 := insufficientSecurity_cases stw2 hwsec2
  have hneu1 := insufficientSecurity_cases su1 hsecu1
  have hneu2 := insufficientSecurity_cases su2 hsecu2
  have hnw1 := insufficientSecurity_cases sw1 hsecw1
  have hnw2 := insufficientSecurity_cases sw2 hsecw2
  have hor := insufficientSecurity_not_success st hsec
  have hworw := insufficientSecurity_not_success stw hwsec
  have hor2 := insufficientSecurity_not_success st2 hsec2
  have hworw2 := insufficientSecurity_not_success stw2 hwsec2
  have horu1 := insufficientSecurity_not_success su1 hsecu1
  have horu2 := insufficientSecurity_not_success su2 hsecu2
  have horw1 := insufficientSecurity_not_success sw1 hsecw1
  have horw2 := insufficientSecurity_not_success sw2 hsecw2
  have ha2p2 : processReadEvents env.connId buf a2.events =
      (buf ++ b2, some st2) := by
    rw [processReadEvents_decomp, ha2p]
  have haa2p2 : processReadEvents env.connId c1 aa2.events =
      (c1 ++ c2, some su2) := by
    rw [processReadEvents_decomp, haa2p]
  refine ⟨?_, ?_, ?_, ?_, ?_, ?_, ?_, ?_, ?_⟩
  · simp [readValue, readLoop, hc, ha0, hap, hor, hne.2.2, hsec, hnosec]
  · simp [writeValue, writeLoop, hc, hw0, hwp, hworw, hnew.2.2, hwsec,
      hwnosec]
  · simp [writeValue, writeLoop, hc, hw0, hwp, hworw, hnew.2.2, hwsec,
      hwnosec]
  · simp [readLoop, ha20, ha2p2, hor2, hne2.2.2, hsec2]
  · simp [writeLoop, hw20, hw2p, hworw2, hnew2.2.2, hwsec2]
  · simp [writeLoop, hw20, hw2p, hworw2, hnew2.2.2, hwsec2]
  · simp [readValue, readLoop, hc, haa10, haa1p, horu1, hneu1.2.2, hsecu1,
      hsoa1, haa20, haa2p2, horu2, hneu2.2.2, hsecu2, sub_self]
  · simp [writeValue, writeLoop, hc, hww10, hww1p, horw1, hnw1.2.2, hsecw1,
      hsow1, hww20, hww2p, horw2, hnw2.2.2, hsecw2, sub_self]
  · simp [writeValue, writeLoop, hc, hww10, hww1p, horw1, hnw1.2.2, hsecw1,
      hsow1, hww20, hww2p, horw2, hnw2.2.2, hsecw2, sub_self]

/-- Witness for the one-attempt security failure: no upgrade available,
budget exhausted with an upgrade still available, and the full
upgrade-then-second-failure run, each at a concrete input. -/
theorem security_failure_single_attempt_witness :
    readValue ⟨true, 1, 23⟩ [⟨0, [ReadEvent.cb 1 261 none], false⟩] =
      ⟨some [], 1, 1, 1, 0⟩ ∧
    (writeValue ⟨true, 1, 23⟩ 7 [2] true 0
      [⟨0, [WriteEvent.cb 1 271], false⟩]).result = some false ∧
    ((writeValue ⟨true, 1, 23⟩ 7 [2] true 0
      [⟨0, [WriteEvent.cb 1 271], false⟩]).reqs).length = 1 ∧
    readLoop 1 [9] 0 [⟨0, [ReadEvent.cb 1 264 none], true⟩] =
      ⟨some [], 1, 1, 1, 0⟩ ∧
    (writeLoop 1 7 20 [2] 0 [⟨0, [WriteEvent.cb 1 261], true⟩]).result =
      some false ∧
    ((writeLoop 1 7 20 [2] 0
      [⟨0, [WriteEvent.cb 1 261], true⟩]).reqs).length = 1 ∧
    readValue ⟨true, 1, 23⟩
      [⟨0, [ReadEvent.cb 1 271 none], true⟩,
       ⟨0, [ReadEvent.cb 1 271 none], true⟩] = ⟨some [], 2, 2, 2, 0⟩ ∧
    (writeValue ⟨true, 1, 23⟩ 7 [2] true 0
      [⟨0, [WriteEvent.cb 1 261], true⟩,
       ⟨0, [WriteEvent.cb 1 261], true⟩]).result = some false ∧
    ((writeValue ⟨true, 1, 23⟩ 7 [2] true 0
      [⟨0, [WriteEvent.cb 1 261], true⟩,
       ⟨0, [WriteEvent.cb 1 261], true⟩]).reqs).length = 2 :=
  security_failure_single_attempt ⟨true, 1, 23⟩ 7 0 20 [2] [9]
    ⟨0, [ReadEvent.cb 1 261 none], false⟩ []
    ⟨0, [WriteEvent.cb 1 271], false⟩ []
    ⟨0, [ReadEvent.cb 1 264 none], true⟩ []
    ⟨0, [WriteEvent.cb 1 261], true⟩ []
    ⟨0, [ReadEvent.cb 1 271 none], true⟩ ⟨0, [ReadEvent.cb 1 271 none], true⟩
    ⟨0, [WriteEvent.cb 1 261], true⟩ ⟨0, [WriteEvent.cb 1 261], true⟩
    [] [] [] [] 261 271 264 261 271 271 261 261
    rfl rfl rfl (by decide) rfl
    rfl rfl (by decide) rfl
    rfl rfl (by decide)
    rfl rfl (by decide)
    rfl rfl (by decide) rfl
    rfl rfl (by decide)
    rfl rfl (by decide) rfl
    rfl rfl (by decide)

/-- C2 counterexample: a first attempt accumulates bytes 1,2 and then
signals insufficient encryption; the security upgrade succeeds and the
retried attempt delivers bytes 3,4 and the success terminal. readValue
returns all four bytes, not only the bytes of the final attempt, because
the accumulated value buffer is never cleared before the retried request. -/
theorem readValue_retry_keeps_buffer_counterexample :
    (readValue ⟨true, 1, 23⟩
      [⟨0, [ReadEvent.cb 1 0 (some [1, 2]),
            ReadEvent.cb 1 (BLE_HS_ATT_ERR BLE_ATT_ERR_INSUFFICIENT_ENC) none],
        true⟩,
       ⟨0, [ReadEvent.cb 1 0 (some [3, 4]),
            ReadEvent.cb 1 BLE_HS_EDONE none], true⟩]).result =
      some [1, 2, 3, 4] ∧
    some [1, 2, 3, 4] ≠ some ([3, 4] : List Nat) := by
  refine ⟨by decide, by decide⟩

/-- C2 amended: the accumulated value buffer is cleared once at the start of
readValue, not again before a security retry; when the first attempt
accumulates b1 before failing with an insufficient security status that is
retried, and the retried attempt accumulates b2 and succeeds, readValue
returns b1 ++ b2. -/
theorem readValue_retry_accumulates (env : ClientEnv) (a1 a2 : ReadAttemptEnv)
    (b1 b2 : List Nat) (st : Nat)
    (hc : env.connected = true)
    (h10 : a1.issueRc = 0)
    (h1p : processReadEvents env.connId [] a1.events = (b1, some st))
    (hsec : isInsufficientSecurity st = true)
    (hso : a1.secureOk = true)
    (h20 : a2.issueRc = 0)
    (h2p : processReadEvents env.connId [] a2.events = (b2, some 0)) :
    (readValue env [a1, a2]).result = some (b1 ++ b2) := by
  have hne := insufficientSecurity_cases st hsec
  have hor : ¬ (st = 0 ∨ st = BLE_HS_EDONE) := by
    rintro (h | h)
    · exact hne.1 h
    · exact hne.2.1 h
  have h2p2 : processReadEvents env.connId b1 a2.events =
      (b1 ++ b2, some 0) := by
    rw [processReadEvents_decomp, h2p]
  simp [readValue, readLoop, hc, h10, h20, h1p, h2p2, hor, hne.2.2, hsec,
    hso, sub_self]

/-- Witness for buffer accumulation across a security retry. -/
theorem readValue_retry_accumulates_witness :
    (readValue ⟨true, 1, 23⟩
      [⟨0, [ReadEvent.cb 1 0 (some [5]), ReadEvent.cb 1 261 none], true⟩,
       ⟨0, [ReadEvent.cb 1 0 (some [6]), ReadEvent.cb 1 0 none], true⟩]).result =
      some ([5] ++ [6]) :=
  readValue_retry_accumulates ⟨true, 1, 23⟩
    ⟨0, [ReadEvent.cb 1 0 (some [5]), ReadEvent.cb 1 261 none], true⟩
    ⟨0, [ReadEvent.cb 1 0 (some [6]), ReadEvent.cb 1 0 none], true⟩
    [5] [6] 261 rfl rfl rfl (by decide) rfl rfl rfl

/-- C4: an oversized write (payload longer than the single-frame ceiling
unitSize - 3) whose first attempt completes with the attribute-not-long
status issues the retry as a single-frame acknowledged write whose payload
is exactly the first unitSize - 3 bytes of the original payload. -/
theorem writeValue_truncate_retry (env : ClientEnv) (hnd nr : Nat)
    (d : List Nat) (resp : Bool) (a1 a2 : WriteAttemptEnv)
    (rest : List WriteAttemptEnv)
    (hc : env.connected = true) (h3 : 3 ≤ env.attMtu)
    (hm : env.attMtu < 65536)
    (hlen : env.attMtu - 3 < d.length)
    (h10 : a1.issueRc = 0)
    (h1p : processWriteEvents env.connId a1.events =
      some (BLE_HS_ATT_ERR BLE_ATT_ERR_ATTR_NOT_LONG)) :
    ((writeValue env hnd d resp nr (a1 :: a2 :: rest)).reqs)[0]? =
      some ⟨WriteReqKind.long, env.connId, hnd, d⟩ ∧
    ((writeValue env hnd d resp nr (a1 :: a2 :: rest)).reqs)[1]? =
      some ⟨WriteReqKind.flat, env.connId, hnd, d.take (env.attMtu - 3)⟩ ∧
    (d.take (env.attMtu - 3)).length = env.attMtu - 3 := by
  have hmc : mtuCeil env.attMtu = env.attMtu - 3 :=
    mtuCeil_eq env.attMtu h3 hm
  have hfast : ¬ (d.length ≤ mtuCeil env.attMtu ∧ ¬ resp = true) := by
    rw [hmc]
    rintro ⟨hle, -⟩
    omega
  have hor : ¬ (BLE_HS_ATT_ERR BLE_ATT_ERR_ATTR_NOT_LONG = 0 ∨
      BLE_HS_ATT_ERR BLE_ATT_ERR_ATTR_NOT_LONG = BLE_HS_EDONE) := by decide
  have hval : writeValue env hnd d resp nr (a1 :: a2 :: rest) =
      writeLoop env.connId hnd (env.attMtu - 3) d 1 (a1 :: a2 :: rest) := by
    simp only [writeValue]
    rw [if_neg (show ¬ (¬ env.connected = true) from by simp [hc]),
      if_neg hfast, hmc]
  have hstep : (writeLoop env.connId hnd (env.attMtu - 3) d 1
      (a1 :: a2 :: rest)).reqs =
      (⟨WriteReqKind.long, env.connId, hnd, d⟩ : WriteReq) ::
        (writeLoop env.connId hnd (env.attMtu - 3) (d.take (env.attMtu - 3))
          1 (a2 :: rest)).reqs := by
    rw [writeLoop]
    simp [h10, h1p, hor, hlen]
  have hlen2 : (d.take (env.attMtu - 3)).length = env.attMtu - 3 := by
    rw [List.length_take]
    omega
  obtain ⟨t, ht⟩ := writeLoop_reqs_head env.connId hnd (env.attMtu - 3)
    (d.take (env.attMtu - 3)) 1 a2 rest
  rw [hlen2] at ht
  simp only [lt_irrefl, if_false, ite_false, gt_iff_lt] at ht
  refine ⟨?_, ?_, hlen2⟩
  · rw [hval, hstep]
    simp
  · rw [hval, hstep, ht]
    simp

/-- Witness for the truncate-and-retry write at a concrete input. -/
theorem writeValue_truncate_retry_witness :
    ((writeValue ⟨true, 1, 23⟩ 7 (List.replicate 30 9) true 0
      [⟨0, [WriteEvent.cb 1 (BLE_HS_ATT_ERR BLE_ATT_ERR_ATTR_NOT_LONG)], true⟩,
       ⟨0, [WriteEvent.cb 1 0], true⟩]).reqs)[0]? =
      some ⟨WriteReqKind.long, 1, 7, List.replicate 30 9⟩ ∧
    ((writeValue ⟨true, 1, 23⟩ 7 (List.replicate 30 9) true 0
      [⟨0, [WriteEvent.cb 1 (BLE_HS_ATT_ERR BLE_ATT_ERR_ATTR_NOT_LONG)], true⟩,
       ⟨0, [WriteEvent.cb 1 0], true⟩]).reqs)[1]? =
      some ⟨WriteReqKind.flat, 1, 7, (List.replicate 30 9).take (23 - 3)⟩ ∧
    ((List.replicate 30 9).take (23 - 3)).length = 23 - 3 :=
  writeValue_truncate_retry ⟨true, 1, 23⟩ 7 0 (List.replicate 30 9) true
    ⟨0, [WriteEvent.cb 1 (BLE_HS_ATT_ERR BLE_ATT_ERR_ATTR_NOT_LONG)], true⟩
    ⟨0, [WriteEvent.cb 1 0], true⟩ []
    rfl (by decide) (by decide) (by decide) rfl rfl

/-- C1 counterexample: with unit size 23 and a 30-byte payload, the status
sequence attr-not-long, insufficient-encryption (with a successful security
upgrade), success makes writeValue issue three transport requests before
succeeding, exceeding the claimed two-request ceiling. -/
theorem writeValue_three_requests_counterexample :
    ((writeValue ⟨true, 1, 23⟩ 5 (List.replicate 30 7) true 0
      [⟨0, [WriteEvent.cb 1 (BLE_HS_ATT_ERR BLE_ATT_ERR_ATTR_NOT_LONG)], true⟩,
       ⟨0, [WriteEvent.cb 1 (BLE_HS_ATT_ERR BLE_ATT_ERR_INSUFFICIENT_ENC)],
        true⟩,
       ⟨0, [WriteEvent.cb 1 0], true⟩]).reqs).length = 3 ∧
    (writeValue ⟨true, 1, 23⟩ 5 (List.replicate 30 7) true 0
      [⟨0, [WriteEvent.cb 1 (BLE_HS_ATT_ERR BLE_ATT_ERR_ATTR_NOT_LONG)], true⟩,
       ⟨0, [WriteEvent.cb 1 (BLE_HS_ATT_ERR BLE_ATT_ERR_INSUFFICIENT_ENC)],
        true⟩,
       ⟨0, [WriteEvent.cb 1 0], true⟩]).result = some true := by
  refine ⟨by decide, by decide⟩

/-- C1 amended: readValue issues at most two transport requests per call
and terminates once the environment supplies two attempts that each
produce a completion signal; writeValue obeys the same ceiling and
termination only when no attempt completes with the attribute-not-long
status, since each delivery of that status grants one further attempt. -/
theorem attempt_bound_amended (env : ClientEnv) (hnd nr : Nat) (d : List Nat)
    (resp : Bool) (ratts : List ReadAttemptEnv)
    (watts : List WriteAttemptEnv) :
    (readValue env ratts).requests ≤ 2 ∧
    (2 ≤ ratts.length →
      (∀ a ∈ ratts, ((processReadEvents env.connId [] a.events).2).isSome) →
      ((readValue env ratts).result).isSome) ∧
    ((∀ a ∈ watts, processWriteEvents env.connId a.events ≠
        some (BLE_HS_ATT_ERR BLE_ATT_ERR_ATTR_NOT_LONG)) →
      ((writeValue env hnd d resp nr watts).reqs).length ≤ 2 ∧
      (2 ≤ watts.length →
        (∀ a ∈ watts, (processWriteEvents env.connId a.events).isSome) →
        ((writeValue env hnd d resp nr watts).result).isSome)) := by
  refine ⟨?_, ?_, ?_⟩
  · by_cases hc : env.connected = true
    · rw [readValue, if_pos hc]
      exact readLoop_requests_retry_one env.connId [] ratts
    · rw [readValue, if_neg hc]
      simp
  · intro hlen hsig
    by_cases hc : env.connected = true
    · rw [readValue, if_pos hc]
      cases ratts with
      | nil => simp at hlen
      | cons a1 l1 =>
        cases l1 with
        | nil => simp at hlen
        | cons a2 rest =>
          exact readLoop_isSome_retry_one env.connId a1 a2 rest
            (hsig a1 (by simp)) (hsig a2 (by simp))
    · rw [readValue, if_neg hc]
      simp
  · intro hnl
    constructor
    · by_cases hc : env.connected = true
      · simp only [writeValue]
        rw [if_neg (show ¬ (¬ env.connected = true) from by simp [hc])]
        by_cases hfast : d.length ≤ mtuCeil env.attMtu ∧ ¬ resp = true
        · rw [if_pos hfast]
          simp
        · rw [if_neg hfast]
          exact writeLoop_reqs_len_retry_one env.connId hnd
            (mtuCeil env.attMtu) d watts hnl
      · simp only [writeValue]
        rw [if_pos (show (¬ env.connected = true) from by simp [hc])]
        simp
    · intro hlen2 hsig2
      by_cases hc : env.connected = true
      · simp only [writeValue]
        rw [if_neg (show ¬ (¬ env.connected = true) from by simp [hc])]
        by_cases hfast : d.length ≤ mtuCeil env.attMtu ∧ ¬ resp = true
        · rw [if_pos hfast]
          simp
        · rw [if_neg hfast]
          cases watts with
          | nil => simp at hlen2
          | cons a1 l1 =>
            cases l1 with
            | nil => simp at hlen2
            | cons a2 rest =>
              exact writeLoop_isSome_retry_one env.connId hnd
                (mtuCeil env.attMtu) d a1 a2 rest
                (hsig2 a1 (by simp)) (hsig2 a2 (by simp))
                (hnl a1 (by simp)) (hnl a2 (by simp))
      · simp only [writeValue]
        rw [if_pos (show (¬ env.connected = true) from by simp [hc])]
        simp

/-- Witness for the amended attempt bound at concrete inputs. -/
theorem attempt_bound_amended_witness :
    (readValue ⟨true, 1, 23⟩
      [⟨0, [ReadEvent.cb 1 0 none], true⟩,
       ⟨0, [ReadEvent.cb 1 0 none], true⟩]).requests ≤ 2 ∧
    ((readValue ⟨true, 1, 23⟩
      [⟨0, [ReadEvent.cb 1 0 none], true⟩,
       ⟨0, [ReadEvent.cb 1 0 none], true⟩]).result).isSome ∧
    ((writeValue ⟨true, 1, 23⟩ 7 [1, 2] true 0
      [⟨0, [WriteEvent.cb 1 0], true⟩,
       ⟨0, [WriteEvent.cb 1 0], true⟩]).reqs).length ≤ 2 ∧
    ((writeValue ⟨true, 1, 23⟩ 7 [1, 2] true 0
      [⟨0, [WriteEvent.cb 1 0], true⟩,
       ⟨0, [WriteEvent.cb 1 0], true⟩]).result).isSome := by
  have h := attempt_bound_amended ⟨true, 1, 23⟩ 7 0 [1, 2] true
    [⟨0, [ReadEvent.cb 1 0 none], true⟩, ⟨0, [ReadEvent.cb 1 0 none], true⟩]
    [⟨0, [WriteEvent.cb 1 0], true⟩, ⟨0, [WriteEvent.cb 1 0], true⟩]
  exact ⟨h.1, h.2.1 (by decide) (by decide), (h.2.2 (by decide)).1,
    (h.2.2 (by decide)).2 (by decide) (by decide)⟩
